import Mathlib

/-!
Verification of the Amlogic Meson IR receiver driver
(`drivers/media/rc/meson-ir.c`).

The driver's register manipulation is embedded shallowly: a register file
holds the nine memory-mapped `u32` registers as natural numbers, each
driver entry point is transcribed as the list of atomic actions it performs
(register read-modify-writes, lock operations, decoder-sink calls, timer
operations), and the register effect of a trace is obtained by folding the
write actions over the register file.  Concurrency claims about the flush
timer and `remove` are settled on a small labelled-transition system whose
steps are the interrupt handler, the timer expiry, the hardware edge latch
and `meson_ir_remove`.
-/

namespace MesonIR

/-- The kernel macro `GENMASK(h, l)`: bits `l` through `h` set. -/
def GENMASK (h l : Nat) : Nat := (2 ^ (h - l + 1) - 1) <<< l

/-- The kernel macro `BIT(n)`. -/
def BIT (n : Nat) : Nat := 1 <<< n

def REG0_RATE_MASK : Nat := GENMASK 11 0

def DECODE_MODE_NEC : Nat := 0x0

def DECODE_MODE_RAW : Nat := 0x2

def REG1_MODE_MASK : Nat := GENMASK 8 7

def REG1_MODE_SHIFT : Nat := 7

def REG2_MODE_MASK : Nat := GENMASK 3 0

def REG2_MODE_SHIFT : Nat := 0

def REG1_IRQSEL_MASK : Nat := GENMASK 3 2

def REG1_IRQSEL_RISE_FALL : Nat := 1

def REG1_RESET : Nat := BIT 0

def REG1_POL : Nat := BIT 1

def REG1_ENABLE : Nat := BIT 15

def STATUS_IR_DEC_IN : Nat := BIT 8

/-- Sample period in microseconds (`MESON_TRATE`). -/
def MESON_TRATE : Nat := 10

/-- Index of the lowest set bit, computed with structural fuel recursion
(the kernel's `__bf_shf`, used by `FIELD_PREP`). -/
def bfShfAux : Nat → Nat → Nat
  | 0, _ => 0
  | fuel + 1, m => if m % 2 = 1 then 0 else bfShfAux fuel (m / 2) + 1

def bfShf (m : Nat) : Nat := bfShfAux 32 m

/-- The kernel macro `FIELD_PREP(mask, val)`. -/
def FIELD_PREP (mask val : Nat) : Nat := (val <<< bfShf mask) &&& mask

/-- All 32 bits set; C's `~mask` on a `u32` is `U32_MAX ^^^ mask`. -/
def U32_MAX : Nat := 2 ^ 32 - 1

/-- Bitwise complement of a 32-bit quantity. -/
def compl32 (m : Nat) : Nat := U32_MAX ^^^ m

/-- The nine memory-mapped decoder registers (offsets 0x00 through 0x20). -/
inductive IrReg where
  | LDR_ACTIVE
  | LDR_IDLE
  | LDR_REPEAT
  | BIT_0
  | REG0
  | FRAME
  | STATUS
  | REG1
  | REG2
deriving DecidableEq, Repr

/-- The register file of one peripheral instance: the current `u32` value of
each register. -/
structure RegFile where
  ldr_active : Nat
  ldr_idle : Nat
  ldr_repeat : Nat
  bit_0 : Nat
  reg0 : Nat
  frame : Nat
  status : Nat
  reg1 : Nat
  reg2 : Nat
deriving DecidableEq, Repr

def getReg (rf : RegFile) : IrReg → Nat
  | .LDR_ACTIVE => rf.ldr_active
  | .LDR_IDLE => rf.ldr_idle
  | .LDR_REPEAT => rf.ldr_repeat
  | .BIT_0 => rf.bit_0
  | .REG0 => rf.reg0
  | .FRAME => rf.frame
  | .STATUS => rf.status
  | .REG1 => rf.reg1
  | .REG2 => rf.reg2

def setReg (rf : RegFile) : IrReg → Nat → RegFile
  | .LDR_ACTIVE, v => { rf with ldr_active := v }
  | .LDR_IDLE, v => { rf with ldr_idle := v }
  | .LDR_REPEAT, v => { rf with ldr_repeat := v }
  | .BIT_0, v => { rf with bit_0 := v }
  | .REG0, v => { rf with reg0 := v }
  | .FRAME, v => { rf with frame := v }
  | .STATUS, v => { rf with status := v }
  | .REG1, v => { rf with reg1 := v }
  | .REG2, v => { rf with reg2 := v }

/-- `meson_ir_set_mask`: read-modify-write of one register, clearing the
`mask` bits and ORing in `value & mask` (source lines 84-92). -/
def meson_ir_set_mask (rf : RegFile) (reg : IrReg) (mask value : Nat) : RegFile :=
  let data := getReg rf reg
  let data := data &&& compl32 mask
  let data := data ||| (value &&& mask)
  setReg rf reg data

/-- The two register layouts for the decode-mode field: `"amlogic,meson6-ir"`
configures the mode in REG1 bits [8:7] (the spec's Legacy variant); Meson 8b
and GXBB configure it in REG2 bits [3:0] (the Extended variant). -/
inductive Variant where
  | legacy
  | extended
deriving DecidableEq, Repr

/-- The atomic actions a driver entry point performs, in program order. -/
inductive Action where
  | lock
  | unlock
  | write (reg : IrReg) (mask value : Nat)
  | readReg (reg : IrReg)
  | storeEdge (level : Bool)
  | storeTimeout (duration : Nat)
  | handleEvents
  | modTimer (deadline : Nat)
  | delTimerSync
  | enableIrq
  | enableIrqWake
deriving DecidableEq, Repr

/-- Register effect of one action: only `write` (a `meson_ir_set_mask` call)
changes the register file. -/
def runAction (rf : RegFile) : Action → RegFile
  | .write r m v => meson_ir_set_mask rf r m v
  | _ => rf

def runTrace (rf : RegFile) (tr : List Action) : RegFile := tr.foldl runAction rf

/-- `meson_ir_init` (source lines 125-157), as its sequence of actions:
reset pulse, mode select by variant, sample rate, irq select, polarity,
enable, then the two discarded status reads. -/
def meson_ir_init_actions (variant : Variant) (pulse_inverted : Bool) : List Action :=
  [Action.write .REG1 REG1_RESET REG1_RESET,
   Action.write .REG1 REG1_RESET 0,
   (match variant with
    | .legacy => Action.write .REG1 REG1_MODE_MASK (FIELD_PREP REG1_MODE_MASK DECODE_MODE_RAW)
    | .extended => Action.write .REG2 REG2_MODE_MASK (FIELD_PREP REG2_MODE_MASK DECODE_MODE_RAW)),
   Action.write .REG0 REG0_RATE_MASK (MESON_TRATE - 1),
   Action.write .REG1 REG1_IRQSEL_MASK (FIELD_PREP REG1_IRQSEL_MASK REG1_IRQSEL_RISE_FALL),
   Action.write .REG1 REG1_POL (if pulse_inverted then REG1_POL else 0),
   Action.write .REG1 REG1_ENABLE REG1_ENABLE,
   Action.readReg .STATUS,
   Action.readReg .FRAME]

/-- Register effect of `meson_ir_init`. -/
def meson_ir_init (variant : Variant) (pulse_inverted : Bool) (rf : RegFile) : RegFile :=
  runTrace rf (meson_ir_init_actions variant pulse_inverted)

/-- Return values of a kernel interrupt handler. -/
inductive IrqReturn where
  | IRQ_HANDLED
  | IRQ_NONE
deriving DecidableEq, Repr

/-- `meson_ir_irq` (source lines 94-112), as its action sequence: under the
lock, store an edge whose level is the sampled STATUS bit 8, re-arm the flush
timer to now plus the configured timeout, and process pending events. -/
def meson_ir_irq_actions (rf : RegFile) (timeout now : Nat) : List Action :=
  [Action.lock,
   Action.storeEdge (decide ((getReg rf .STATUS &&& STATUS_IR_DEC_IN) ≠ 0)),
   Action.modTimer (now + timeout),
   Action.handleEvents,
   Action.unlock]

/-- `meson_ir_irq` returns `IRQ_HANDLED` on every invocation. -/
def meson_ir_irq_ret : IrqReturn := .IRQ_HANDLED

/-- `flush_timer` (source lines 114-123), the flush-timer expiry callback:
store a synthetic timeout event of duration `ir->rc->timeout` and process
pending events.  The source acquires no lock here. -/
def flush_timer_actions (timeout : Nat) : List Action :=
  [Action.storeTimeout timeout, Action.handleEvents]

/-- `meson_ir_remove` (source lines 241-254): clear REG1_ENABLE under the
lock, then `del_timer_sync`. -/
def meson_ir_remove_actions : List Action :=
  [Action.lock, Action.write .REG1 REG1_ENABLE 0, Action.unlock, Action.delTimerSync]

/-- `meson_ir_shutdown` (source lines 256-280): under the lock, set the mode
field to NEC/hardware decoding and the rate field to 0x13. -/
def meson_ir_shutdown_actions (variant : Variant) : List Action :=
  [Action.lock,
   (match variant with
    | .legacy => Action.write .REG1 REG1_MODE_MASK (DECODE_MODE_NEC <<< REG1_MODE_SHIFT)
    | .extended => Action.write .REG2 REG2_MODE_MASK (DECODE_MODE_NEC <<< REG2_MODE_SHIFT)),
   Action.write .REG0 REG0_RATE_MASK 0x13,
   Action.unlock]

/-- Register effect of `meson_ir_shutdown`. -/
def meson_ir_shutdown (variant : Variant) (rf : RegFile) : RegFile :=
  runTrace rf (meson_ir_shutdown_actions variant)

/-- The module-global backup variables `backup_IR_DEC_*` (source lines
64-69), one slot per backed-up register. -/
structure Backup where
  reg0 : Nat
  reg1 : Nat
  ldr_active : Nat
  ldr_idle : Nat
  bit_0 : Nat
  ldr_repeat : Nat
deriving DecidableEq, Repr

/-- The backup capture at the end of `meson_ir_probe` (source lines 228-234):
read the six registers into the backup variables. -/
def captureBackup (rf : RegFile) : Backup :=
  { reg0 := rf.reg0
    reg1 := rf.reg1
    ldr_active := rf.ldr_active
    ldr_idle := rf.ldr_idle
    bit_0 := rf.bit_0
    ldr_repeat := rf.ldr_repeat }

/-- `meson_ir_resume` (source lines 283-310): under the lock, re-apply each
backup slot with `meson_ir_set_mask(reg, backup, backup)`, re-run
`meson_ir_init` in full, then re-enable the interrupt (`enable_irq` when
`CONFIG_AMLOGIC_MODIFY` is set, `enable_irq_wake` otherwise). -/
def meson_ir_resume_actions (b : Backup) (variant : Variant)
    (pulse_inverted amlogic_modify : Bool) : List Action :=
  ([Action.lock,
    Action.write .REG0 b.reg0 b.reg0,
    Action.write .REG1 b.reg1 b.reg1,
    Action.write .LDR_ACTIVE b.ldr_active b.ldr_active,
    Action.write .LDR_IDLE b.ldr_idle b.ldr_idle,
    Action.write .BIT_0 b.bit_0 b.bit_0,
    Action.write .LDR_REPEAT b.ldr_repeat b.ldr_repeat]
   ++ meson_ir_init_actions variant pulse_inverted)
  ++ [(if amlogic_modify then Action.enableIrq else Action.enableIrqWake), Action.unlock]

/-- Register effect of `meson_ir_resume`. -/
def meson_ir_resume (b : Backup) (variant : Variant) (pulse_inverted amlogic_modify : Bool)
    (rf : RegFile) : RegFile :=
  runTrace rf (meson_ir_resume_actions b variant pulse_inverted amlogic_modify)

/-- The decode-mode field of the register file, at the layout of the given
variant. -/
def modeField (variant : Variant) (rf : RegFile) : Nat :=
  match variant with
  | .legacy => getReg rf .REG1 &&& REG1_MODE_MASK
  | .extended => getReg rf .REG2 &&& REG2_MODE_MASK

/-- Fold step deciding whether every decoder-sink call in a trace happens
while the lock is held; the state is (lock currently held, all sink calls so
far were under the lock). -/
def sinkLockStep (st : Bool × Bool) (a : Action) : Bool × Bool :=
  match a with
  | .lock => (true, st.2)
  | .unlock => (false, st.2)
  | .storeEdge _ => (st.1, st.2 && st.1)
  | .storeTimeout _ => (st.1, st.2 && st.1)
  | .handleEvents => (st.1, st.2 && st.1)
  | _ => st

/-- All decoder-sink invocations in the trace occur with the lock held. -/
def sinkCallsLocked (tr : List Action) : Bool :=
  (tr.foldl sinkLockStep (false, true)).2

/-- Fold step deciding whether every register write in a trace happens while
the lock is held. -/
def regWriteLockStep (st : Bool × Bool) (a : Action) : Bool × Bool :=
  match a with
  | .lock => (true, st.2)
  | .unlock => (false, st.2)
  | .write _ _ _ => (st.1, st.2 && st.1)
  | _ => st

/-- All register writes in the trace occur with the lock held. -/
def regWritesLocked (tr : List Action) : Bool :=
  (tr.foldl regWriteLockStep (false, true)).2

/-- Two driver instances bound to two peripherals. -/
inductive Inst where
  | A
  | B
deriving DecidableEq, Repr

/-- Module-level system state: the single shared set of `backup_*` variables
(they are file-scope globals in the source, not members of `struct meson_ir`)
together with each instance's own register file. -/
structure Sys where
  backup : Backup
  rfA : RegFile
  rfB : RegFile
deriving DecidableEq, Repr

def rfOf (s : Sys) : Inst → RegFile
  | .A => s.rfA
  | .B => s.rfB

def setRfOf (s : Sys) : Inst → RegFile → Sys
  | .A, rf => { s with rfA := rf }
  | .B, rf => { s with rfB := rf }

/-- The configuration tail of `meson_ir_probe` for instance `i` (source lines
226-234): run `meson_ir_init` on `i`'s registers, then overwrite the
module-global backup variables from `i`'s registers. -/
def probeAttach (i : Inst) (variant : Variant) (pulse_inverted : Bool) (s : Sys) : Sys :=
  let rf := meson_ir_init variant pulse_inverted (rfOf s i)
  { setRfOf s i rf with backup := captureBackup rf }

/-- The snapshot `meson_ir_resume` of instance `i` reads: the module-global
backup variables (source lines 292-297 read `backup_*` regardless of which
instance is resuming). -/
def resumeReadsBackup (s : Sys) (_i : Inst) : Backup := s.backup

/-- `meson_ir_resume` run by instance `i` in the module-level model: it
applies the restore-plus-reinit trace to `i`'s registers and only reads the
shared backup. -/
def resumeInst (i : Inst) (variant : Variant) (pulse_inverted amlogic_modify : Bool)
    (s : Sys) : Sys :=
  setRfOf s i
    (meson_ir_resume s.backup variant pulse_inverted amlogic_modify (rfOf s i))

/-- State of one device instance for the detach/timer interleaving model:
whether the decoder enable bit is set (so the hardware can latch new edge
interrupts), whether an edge interrupt is latched but its handler has not run
yet, whether the flush timer is armed, whether `meson_ir_remove` has
returned, and how many times the timer fired after `remove` returned. -/
structure DevState where
  enabled : Bool
  irqPending : Bool
  timerArmed : Bool
  removeDone : Bool
  firedAfterRemove : Nat
deriving DecidableEq, Repr

/-- The interleaved events of the detach model. -/
inductive DevStep where
  | edge
  | handler
  | removeRun
  | timerFire
deriving DecidableEq, Repr

/-- One transition.  `edge` latches an interrupt while the decoder enable bit
is set.  `handler` runs `meson_ir_irq` for a latched interrupt; its
unconditional `mod_timer` re-arms the flush timer.  `removeRun` runs
`meson_ir_remove` to completion: clear the enable bit under the lock, then
`del_timer_sync` (which deactivates the timer and waits for a running
callback, but does not prevent a later `mod_timer` from re-arming it).
`timerFire` is an expiry of an armed timer. -/
def devStep (s : DevState) : DevStep → Option DevState
  | .edge => if s.enabled then some { s with irqPending := true } else none
  | .handler =>
      if s.irqPending then some { s with irqPending := false, timerArmed := true } else none
  | .removeRun =>
      if s.removeDone then none
      else some { s with enabled := false, timerArmed := false, removeDone := true }
  | .timerFire =>
      if s.timerArmed then
        some { s with timerArmed := false,
                      firedAfterRemove :=
                        s.firedAfterRemove + (if s.removeDone then 1 else 0) }
      else none

def devRun (s : DevState) : List DevStep → Option DevState
  | [] => some s
  | a :: tr => (devStep s a).bind (fun s' => devRun s' tr)

/-- A freshly attached instance: enabled, no latched interrupt, timer not
armed, not removed. -/
def devAttached : DevState :=
  { enabled := true, irqPending := false, timerArmed := false, removeDone := false,
    firedAfterRemove := 0 }

/-- `MS_TO_US`. -/
def MS_TO_US (ms : Nat) : Nat := ms * 1000

/-- The timing fields of the rc device descriptor. -/
structure RcDevConfig where
  rx_resolution : Nat
  min_timeout : Nat
  timeout : Nat
  max_timeout : Nat
deriving DecidableEq, Repr

/-- The rc-device timing descriptor set up by `meson_ir_probe` (source lines
196-199). -/
def meson_ir_probe_rc : RcDevConfig :=
  { rx_resolution := MESON_TRATE
    min_timeout := 1
    timeout := MS_TO_US 125
    max_timeout := MS_TO_US 1250 }

/-- An all-zero register file. -/
def rf0 : RegFile :=
  { ldr_active := 0, ldr_idle := 0, ldr_repeat := 0, bit_0 := 0, reg0 := 0,
    frame := 0, status := 0, reg1 := 0, reg2 := 0 }

/-- Two instances whose peripherals differ in a register `meson_ir_init` never
writes (LDR_ACTIVE). -/
def sys0 : Sys :=
  { backup := { reg0 := 0, reg1 := 0, ldr_active := 0, ldr_idle := 0, bit_0 := 0,
                ldr_repeat := 0 },
    rfA := rf0,
    rfB := { rf0 with ldr_active := 1 } }

/-- Register file with REG1 holding 0x8001, for exercising `meson_ir_set_mask`. -/
def rfW8 : RegFile := { rf0 with reg1 := 32769 }

/-- Register file with bits set outside the fields `meson_ir_shutdown` writes:
REG0 bit 14 and bit 12, REG1 bit 15, REG2 bits 4 and 5. -/
def rfW9 : RegFile := { rf0 with reg0 := 20480, reg1 := 32768, reg2 := 48 }

/-- The state after an edge is latched and `meson_ir_remove` then runs to
completion, before the latched handler executes. -/
def devAfterEdgeRemove : DevState :=
  { enabled := false, irqPending := true, timerArmed := false, removeDone := true,
    firedAfterRemove := 0 }

/-! Bit-level lemmas about `meson_ir_set_mask`. -/

lemma testBit_compl32 (m i : Nat) :
    (compl32 m).testBit i = (decide (i < 32) ^^ m.testBit i) := by
  have h : compl32 m = (2 ^ 32 - 1) ^^^ m := rfl
  rw [h, Nat.testBit_xor, Nat.testBit_two_pow_sub_one]

lemma testBit_setMaskData (old mask value i : Nat) (hm : mask < 2 ^ 32) :
    ((old &&& compl32 mask) ||| (value &&& mask)).testBit i
      = if mask.testBit i then value.testBit i
        else (old.testBit i && decide (i < 32)) := by
  rw [Nat.testBit_lor, Nat.testBit_land, Nat.testBit_land, testBit_compl32]
  by_cases h32 : i < 32
  · cases hmi : mask.testBit i <;> simp [h32, hmi]
  · have hmi : mask.testBit i = false :=
      Nat.testBit_eq_false_of_lt
        (lt_of_lt_of_le hm (Nat.pow_le_pow_right (by norm_num) (le_of_not_lt h32)))
    simp [h32, hmi]

lemma testBit_setMaskData_lt (old mask value i : Nat) (hm : mask < 2 ^ 32)
    (ho : old < 2 ^ 32) :
    ((old &&& compl32 mask) ||| (value &&& mask)).testBit i
      = if mask.testBit i then value.testBit i else old.testBit i := by
  rw [testBit_setMaskData old mask value i hm]
  by_cases h32 : i < 32
  · simp [h32]
  · have hoi : old.testBit i = false :=
      Nat.testBit_eq_false_of_lt
        (lt_of_lt_of_le ho (Nat.pow_le_pow_right (by norm_num) (le_of_not_lt h32)))
    simp [h32, hoi]

lemma getReg_setReg_same (rf : RegFile) (reg : IrReg) (v : Nat) :
    getReg (setReg rf reg v) reg = v := by
  cases reg <;> rfl

lemma getReg_setReg_other (rf : RegFile) (r1 r2 : IrReg) (v : Nat) (h : r1 ≠ r2) :
    getReg (setReg rf r1 v) r2 = getReg rf r2 := by
  cases r1 <;> cases r2 <;> first | rfl | exact absurd rfl h

lemma set_mask_getReg_same (rf : RegFile) (reg : IrReg) (mask value : Nat) :
    getReg (meson_ir_set_mask rf reg mask value) reg
      = (getReg rf reg &&& compl32 mask) ||| (value &&& mask) := by
  simp [meson_ir_set_mask, getReg_setReg_same]

lemma set_mask_getReg_other (rf : RegFile) (r1 r2 : IrReg) (mask value : Nat)
    (h : r1 ≠ r2) :
    getReg (meson_ir_set_mask rf r1 mask value) r2 = getReg rf r2 := by
  simp [meson_ir_set_mask, getReg_setReg_other _ _ _ _ h]

lemma land_setMaskData_covered (old mask value F : Nat) (hm : mask < 2 ^ 32)
    (hcov : F &&& mask = F) :
    ((old &&& compl32 mask) ||| (value &&& mask)) &&& F = value &&& F := by
  apply Nat.eq_of_testBit_eq
  intro i
  rw [Nat.testBit_land, Nat.testBit_land, testBit_setMaskData old mask value i hm]
  have hFi : (F.testBit i && mask.testBit i) = F.testBit i := by
    rw [← Nat.testBit_land, hcov]
  cases hF : F.testBit i
  · simp
  · rw [hF] at hFi
    simp only [Bool.true_and] at hFi
    simp [hFi]

lemma land_setMaskData_disjoint (old mask value F : Nat) (hm : mask < 2 ^ 32)
    (hF32 : F < 2 ^ 32) (hdis : F &&& mask = 0) :
    ((old &&& compl32 mask) ||| (value &&& mask)) &&& F = old &&& F := by
  apply Nat.eq_of_testBit_eq
  intro i
  rw [Nat.testBit_land, Nat.testBit_land, testBit_setMaskData old mask value i hm]
  cases hF : F.testBit i
  · simp
  · have hi32 : i < 32 := by
      by_contra hn
      have hfalse : F.testBit i = false :=
        Nat.testBit_eq_false_of_lt
          (lt_of_lt_of_le hF32 (Nat.pow_le_pow_right (by norm_num) (le_of_not_lt hn)))
      rw [hfalse] at hF
      exact Bool.noConfusion hF
    have hmi : mask.testBit i = false := by
      have h0 : (F.testBit i && mask.testBit i) = false := by
        rw [← Nat.testBit_land, hdis]
        exact Nat.zero_testBit i
      rw [hF] at h0
      simpa using h0
    simp [hmi, hi32]

lemma testBit_REG1_MODE_MASK (i : Nat) :
    REG1_MODE_MASK.testBit i = (decide ((7 : Nat) = i) || decide ((8 : Nat) = i)) := by
  have h : REG1_MODE_MASK = 2 ^ 7 ||| 2 ^ 8 := by decide
  rw [h, Nat.testBit_lor, Nat.testBit_two_pow, Nat.testBit_two_pow]

lemma testBit_REG0_RATE_MASK (i : Nat) :
    REG0_RATE_MASK.testBit i = decide (i < 12) := by
  have h : REG0_RATE_MASK = 2 ^ 12 - 1 := by decide
  rw [h, Nat.testBit_two_pow_sub_one]

lemma testBit_REG2_MODE_MASK (i : Nat) :
    REG2_MODE_MASK.testBit i = decide (i < 4) := by
  have h : REG2_MODE_MASK = 2 ^ 4 - 1 := by decide
  rw [h, Nat.testBit_two_pow_sub_one]

/-- C truthiness of `readl(STATUS) & STATUS_IR_DEC_IN` agrees with bit 8 of
the sampled STATUS value. -/
lemma storeEdge_level_eq_testBit (x : Nat) :
    decide ((x &&& STATUS_IR_DEC_IN) ≠ 0) = x.testBit 8 := by
  have h : x &&& STATUS_IR_DEC_IN = (x.testBit 8).toNat * 2 ^ 8 := by
    have h2 : STATUS_IR_DEC_IN = 2 ^ 8 := by decide
    rw [h2]
    exact Nat.and_two_pow x 8
  rw [h]
  cases hx : x.testBit 8 <;> decide

/-! Unfolding `meson_ir_init` into its chain of register writes. -/

lemma meson_ir_init_legacy_eq (p : Bool) (rf : RegFile) :
    meson_ir_init .legacy p rf =
      meson_ir_set_mask
        (meson_ir_set_mask
          (meson_ir_set_mask
            (meson_ir_set_mask
              (meson_ir_set_mask
                (meson_ir_set_mask
                  (meson_ir_set_mask rf .REG1 REG1_RESET REG1_RESET)
                  .REG1 REG1_RESET 0)
                .REG1 REG1_MODE_MASK (FIELD_PREP REG1_MODE_MASK DECODE_MODE_RAW))
              .REG0 REG0_RATE_MASK (MESON_TRATE - 1))
            .REG1 REG1_IRQSEL_MASK (FIELD_PREP REG1_IRQSEL_MASK REG1_IRQSEL_RISE_FALL))
          .REG1 REG1_POL (if p then REG1_POL else 0))
        .REG1 REG1_ENABLE REG1_ENABLE := rfl

lemma meson_ir_init_extended_eq (p : Bool) (rf : RegFile) :
    meson_ir_init .extended p rf =
      meson_ir_set_mask
        (meson_ir_set_mask
          (meson_ir_set_mask
            (meson_ir_set_mask
              (meson_ir_set_mask
                (meson_ir_set_mask
                  (meson_ir_set_mask rf .REG1 REG1_RESET REG1_RESET)
                  .REG1 REG1_RESET 0)
                .REG2 REG2_MODE_MASK (FIELD_PREP REG2_MODE_MASK DECODE_MODE_RAW))
              .REG0 REG0_RATE_MASK (MESON_TRATE - 1))
            .REG1 REG1_IRQSEL_MASK (FIELD_PREP REG1_IRQSEL_MASK REG1_IRQSEL_RISE_FALL))
          .REG1 REG1_POL (if p then REG1_POL else 0))
        .REG1 REG1_ENABLE REG1_ENABLE := rfl

/-! The configuration fields after `meson_ir_init`, for every starting
register state. -/

lemma init_irqsel (v : Variant) (p : Bool) (rf : RegFile) :
    getReg (meson_ir_init v p rf) .REG1 &&& REG1_IRQSEL_MASK = 4 := by
  cases v
  · rw [meson_ir_init_legacy_eq, set_mask_getReg_same,
        land_setMaskData_disjoint _ REG1_ENABLE _ REG1_IRQSEL_MASK
          (by decide) (by decide) (by decide),
        set_mask_getReg_same,
        land_setMaskData_disjoint _ REG1_POL _ REG1_IRQSEL_MASK
          (by decide) (by decide) (by decide),
        set_mask_getReg_same,
        land_setMaskData_covered _ REG1_IRQSEL_MASK _ REG1_IRQSEL_MASK
          (by decide) (by decide)]
    decide
  · rw [meson_ir_init_extended_eq, set_mask_getReg_same,
        land_setMaskData_disjoint _ REG1_ENABLE _ REG1_IRQSEL_MASK
          (by decide) (by decide) (by decide),
        set_mask_getReg_same,
        land_setMaskData_disjoint _ REG1_POL _ REG1_IRQSEL_MASK
          (by decide) (by decide) (by decide),
        set_mask_getReg_same,
        land_setMaskData_covered _ REG1_IRQSEL_MASK _ REG1_IRQSEL_MASK
          (by decide) (by decide)]
    decide

lemma init_pol (v : Variant) (p : Bool) (rf : RegFile) :
    getReg (meson_ir_init v p rf) .REG1 &&& REG1_POL = (if p then 2 else 0) := by
  cases v
  · rw [meson_ir_init_legacy_eq, set_mask_getReg_same,
        land_setMaskData_disjoint _ REG1_ENABLE _ REG1_POL
          (by decide) (by decide) (by decide),
        set_mask_getReg_same,
        land_setMaskData_covered _ REG1_POL _ REG1_POL (by decide) (by decide)]
    cases p <;> decide
  · rw [meson_ir_init_extended_eq, set_mask_getReg_same,
        land_setMaskData_disjoint _ REG1_ENABLE _ REG1_POL
          (by decide) (by decide) (by decide),
        set_mask_getReg_same,
        land_setMaskData_covered _ REG1_POL _ REG1_POL (by decide) (by decide)]
    cases p <;> decide

lemma init_enable (v : Variant) (p : Bool) (rf : RegFile) :
    getReg (meson_ir_init v p rf) .REG1 &&& REG1_ENABLE = 32768 := by
  cases v
  · rw [meson_ir_init_legacy_eq, set_mask_getReg_same,
        land_setMaskData_covered _ REG1_ENABLE _ REG1_ENABLE (by decide) (by decide)]
    decide
  · rw [meson_ir_init_extended_eq, set_mask_getReg_same,
        land_setMaskData_covered _ REG1_ENABLE _ REG1_ENABLE (by decide) (by decide)]
    decide

lemma init_rate (v : Variant) (p : Bool) (rf : RegFile) :
    getReg (meson_ir_init v p rf) .REG0 &&& REG0_RATE_MASK = 9 := by
  cases v
  · rw [meson_ir_init_legacy_eq,
        set_mask_getReg_other _ .REG1 .REG0 _ _ (by decide),
        set_mask_getReg_other _ .REG1 .REG0 _ _ (by decide),
        set_mask_getReg_other _ .REG1 .REG0 _ _ (by decide),
        set_mask_getReg_same,
        land_setMaskData_covered _ REG0_RATE_MASK _ REG0_RATE_MASK
          (by decide) (by decide)]
    decide
  · rw [meson_ir_init_extended_eq,
        set_mask_getReg_other _ .REG1 .REG0 _ _ (by decide),
        set_mask_getReg_other _ .REG1 .REG0 _ _ (by decide),
        set_mask_getReg_other _ .REG1 .REG0 _ _ (by decide),
        set_mask_getReg_same,
        land_setMaskData_covered _ REG0_RATE_MASK _ REG0_RATE_MASK
          (by decide) (by decide)]
    decide

lemma init_mode_legacy (p : Bool) (rf : RegFile) :
    getReg (meson_ir_init .legacy p rf) .REG1 &&& REG1_MODE_MASK = 256 := by
  rw [meson_ir_init_legacy_eq, set_mask_getReg_same,
      land_setMaskData_disjoint _ REG1_ENABLE _ REG1_MODE_MASK
        (by decide) (by decide) (by decide),
      set_mask_getReg_same,
      land_setMaskData_disjoint _ REG1_POL _ REG1_MODE_MASK
        (by decide) (by decide) (by decide),
      set_mask_getReg_same,
      land_setMaskData_disjoint _ REG1_IRQSEL_MASK _ REG1_MODE_MASK
        (by decide) (by decide) (by decide),
      set_mask_getReg_other _ .REG0 .REG1 _ _ (by decide),
      set_mask_getReg_same,
      land_setMaskData_covered _ REG1_MODE_MASK _ REG1_MODE_MASK
        (by decide) (by decide)]
  decide

lemma init_mode_extended (p : Bool) (rf : RegFile) :
    getReg (meson_ir_init .extended p rf) .REG2 &&& REG2_MODE_MASK = 2 := by
  rw [meson_ir_init_extended_eq,
      set_mask_getReg_other _ .REG1 .REG2 _ _ (by decide),
      set_mask_getReg_other _ .REG1 .REG2 _ _ (by decide),
      set_mask_getReg_other _ .REG1 .REG2 _ _ (by decide),
      set_mask_getReg_other _ .REG0 .REG2 _ _ (by decide),
      set_mask_getReg_same,
      land_setMaskData_covered _ REG2_MODE_MASK _ REG2_MODE_MASK
        (by decide) (by decide)]
  decide

/-! Unfolding `meson_ir_shutdown` and `meson_ir_resume`. -/

lemma meson_ir_shutdown_legacy_eq (rf : RegFile) :
    meson_ir_shutdown .legacy rf =
      meson_ir_set_mask
        (meson_ir_set_mask rf .REG1 REG1_MODE_MASK (DECODE_MODE_NEC <<< REG1_MODE_SHIFT))
        .REG0 REG0_RATE_MASK 0x13 := rfl

lemma meson_ir_shutdown_extended_eq (rf : RegFile) :
    meson_ir_shutdown .extended rf =
      meson_ir_set_mask
        (meson_ir_set_mask rf .REG2 REG2_MODE_MASK (DECODE_MODE_NEC <<< REG2_MODE_SHIFT))
        .REG0 REG0_RATE_MASK 0x13 := rfl

lemma meson_ir_resume_as_init (b : Backup) (v : Variant) (p am : Bool) (rf : RegFile) :
    meson_ir_resume b v p am rf =
      meson_ir_init v p (runTrace rf
        [Action.lock,
         Action.write .REG0 b.reg0 b.reg0,
         Action.write .REG1 b.reg1 b.reg1,
         Action.write .LDR_ACTIVE b.ldr_active b.ldr_active,
         Action.write .LDR_IDLE b.ldr_idle b.ldr_idle,
         Action.write .BIT_0 b.bit_0 b.bit_0,
         Action.write .LDR_REPEAT b.ldr_repeat b.ldr_repeat]) := by
  cases am <;>
    simp only [meson_ir_resume, meson_ir_resume_actions, meson_ir_init, runTrace,
      List.foldl_append, List.foldl_cons, List.foldl_nil, runAction] <;>
    rfl

/-! Lemmas about the detach/timer interleaving model. -/

lemma devRun_append (t1 t2 : List DevStep) (s : DevState) :
    devRun s (t1 ++ t2) = (devRun s t1).bind (fun s1 => devRun s1 t2) := by
  induction t1 generalizing s with
  | nil => simp [devRun]
  | cons a t ih =>
      simp only [List.cons_append, devRun]
      cases devStep s a with
      | none => simp
      | some s1 => simp [ih]

lemma devStep_removeDone_mono (s : DevState) (a : DevStep) (s1 : DevState)
    (h : devStep s a = some s1) (hrd : s.removeDone = true) : s1.removeDone = true := by
  cases a <;> simp only [devStep] at h <;> split at h <;>
    first
      | exact Option.noConfusion h
      | (injection h with h2; subst h2; exact hrd)

lemma devStep_fired (s : DevState) (a : DevStep) (s1 : DevState)
    (h : devStep s a = some s1) (hrd : s.removeDone = false) :
    s1.firedAfterRemove = s.firedAfterRemove := by
  cases a <;> simp only [devStep] at h <;> split at h <;>
    first
      | exact Option.noConfusion h
      | (injection h with h2; subst h2; simp [hrd])

lemma devRun_removeDone_mono (tr : List DevStep) :
    ∀ s s', devRun s tr = some s' → s.removeDone = true → s'.removeDone = true := by
  induction tr with
  | nil =>
      intro s s' h hrd
      simp only [devRun] at h
      injection h with h2
      subst h2
      exact hrd
  | cons a t ih =>
      intro s s' h hrd
      simp only [devRun] at h
      cases hs : devStep s a with
      | none => rw [hs] at h; exact Option.noConfusion h
      | some s1 =>
          rw [hs] at h
          simp only [Option.some_bind] at h
          exact ih s1 s' h (devStep_removeDone_mono s a s1 hs hrd)

lemma devRun_fired_zero (tr : List DevStep) :
    ∀ s s', devRun s tr = some s' → s.firedAfterRemove = 0 → s'.removeDone = false →
      s'.firedAfterRemove = 0 := by
  induction tr with
  | nil =>
      intro s s' h hf _
      simp only [devRun] at h
      injection h with h2
      subst h2
      exact hf
  | cons a t ih =>
      intro s s' h hf hrd
      simp only [devRun] at h
      cases hs : devStep s a with
      | none => rw [hs] at h; exact Option.noConfusion h
      | some s1 =>
          rw [hs] at h
          simp only [Option.some_bind] at h
          have hsrd : s.removeDone = false := by
            cases hb : s.removeDone
            · rfl
            · have h1 := devStep_removeDone_mono s a s1 hs hb
              have h2 := devRun_removeDone_mono t s1 s' h h1
              rw [h2] at hrd
              exact Bool.noConfusion hrd
          have hf1 : s1.firedAfterRemove = 0 := by
            rw [devStep_fired s a s1 hs hsrd]
            exact hf
          exact ih s1 s' h hf1 hrd

lemma devRun_post_remove (tr : List DevStep) :
    ∀ s s', devRun s tr = some s' → DevStep.handler ∉ tr →
      s.removeDone = true → s.timerArmed = false → s.firedAfterRemove = 0 →
      s'.firedAfterRemove = 0 := by
  induction tr with
  | nil =>
      intro s s' h _ _ _ hf
      simp only [devRun] at h
      injection h with h2
      subst h2
      exact hf
  | cons a t ih =>
      intro s s' h hnoh hrd hta hf
      have hna : a ≠ DevStep.handler := fun he => hnoh (he ▸ List.mem_cons_self a t)
      have hnt : DevStep.handler ∉ t := fun ht => hnoh (List.mem_cons_of_mem a ht)
      simp only [devRun] at h
      cases hs : devStep s a with
      | none => rw [hs] at h; exact Option.noConfusion h
      | some s1 =>
          rw [hs] at h
          simp only [Option.some_bind] at h
          cases a with
          | handler => exact absurd rfl hna
          | edge =>
              simp only [devStep] at hs
              split at hs
              · injection hs with h2
                subst h2
                exact ih _ s' h hnt hrd hta hf
              · exact Option.noConfusion hs
          | removeRun =>
              simp only [devStep] at hs
              rw [hrd] at hs
              simp at hs
          | timerFire =>
              simp only [devStep] at hs
              rw [hta] at hs
              simp at hs

/-! Claim theorems. -/

/-- Claim C1, counterexample: with two instances whose peripherals differ in
LDR_ACTIVE, after A attaches and then B attaches, the snapshot A's resume
reads is not the one captured at A's own attach — the backup variables are
module-global and B's attach overwrote them. -/
theorem snapshot_aliased_counterexample :
    resumeReadsBackup (probeAttach .B .extended false (probeAttach .A .extended false sys0)) .A
      ≠ captureBackup ((probeAttach .A .extended false sys0).rfA) := by
  decide

/-- Claim C1 (amended): the Configuration Snapshot lives in module-global
variables shared by all instances.  Each attach overwrites the shared
snapshot with the attaching instance's post-configure register values; a
resume reads the shared snapshot, so after A attaches and then B attaches,
A's resume reads the values captured at B's attach (last writer wins), not
its own.  With no interleaved attach, the snapshot an instance reads at
resume is exactly the one captured at its own attach, and resume itself
never modifies the snapshot. -/
theorem snapshot_shared_semantics (s0 : Sys) (vA vB : Variant) (pA pB : Bool) :
    resumeReadsBackup (probeAttach .A vA pA s0) .A
      = captureBackup ((probeAttach .A vA pA s0).rfA)
  ∧ resumeReadsBackup (probeAttach .B vB pB (probeAttach .A vA pA s0)) .A
      = captureBackup ((probeAttach .B vB pB (probeAttach .A vA pA s0)).rfB)
  ∧ (∀ (i : Inst) (v : Variant) (p am : Bool),
       (resumeInst i v p am s0).backup = s0.backup) := by
  refine ⟨rfl, rfl, ?_⟩
  intro i v p am
  cases i <;> rfl

/-- Claim C2, counterexample: the flush-timer expiry callback invokes the
decoder sink without holding the lock — its action trace contains sink calls
but no lock acquisition. -/
theorem flush_timer_sink_unlocked :
    sinkCallsLocked (flush_timer_actions 125000) = false := by
  decide

/-- Claim C2 (amended): on the edge path the decoder sink is invoked only
while the Device Instance's lock is held, but the timer expiry callback
constructs the synthetic timeout event (with duration equal to the
configured timeout) and invokes the decoder sink without acquiring the lock,
so the lock does not serialize the timeout path against the edge path. -/
theorem sink_lock_discipline (rf : RegFile) (timeout now : Nat) :
    sinkCallsLocked (meson_ir_irq_actions rf timeout now) = true
  ∧ sinkCallsLocked (flush_timer_actions timeout) = false
  ∧ flush_timer_actions timeout
      = [Action.storeTimeout timeout, Action.handleEvents] :=
  ⟨rfl, rfl, rfl⟩

/-- Claim C3: for every starting register state, running configure, then the
masked snapshot restore of resume (mask equal to value for each captured
register) followed by a full re-run of configure with the same parameters,
leaves the mode, sample-rate, irq-select and polarity fields bit-identical
to their values immediately after the first configure. -/
theorem resume_roundtrip (rf0' : RegFile) (v : Variant) (p am : Bool) :
    modeField v (meson_ir_resume (captureBackup (meson_ir_init v p rf0')) v p am
                   (meson_ir_init v p rf0'))
        = modeField v (meson_ir_init v p rf0')
  ∧ getReg (meson_ir_resume (captureBackup (meson_ir_init v p rf0')) v p am
              (meson_ir_init v p rf0')) .REG0 &&& REG0_RATE_MASK
        = getReg (meson_ir_init v p rf0') .REG0 &&& REG0_RATE_MASK
  ∧ getReg (meson_ir_resume (captureBackup (meson_ir_init v p rf0')) v p am
              (meson_ir_init v p rf0')) .REG1 &&& REG1_IRQSEL_MASK
        = getReg (meson_ir_init v p rf0') .REG1 &&& REG1_IRQSEL_MASK
  ∧ getReg (meson_ir_resume (captureBackup (meson_ir_init v p rf0')) v p am
              (meson_ir_init v p rf0')) .REG1 &&& REG1_POL
        = getReg (meson_ir_init v p rf0') .REG1 &&& REG1_POL := by
  have hres := meson_ir_resume_as_init (captureBackup (meson_ir_init v p rf0')) v p am
    (meson_ir_init v p rf0')
  refine ⟨?_, ?_, ?_, ?_⟩
  · cases v
    · simp only [modeField]
      rw [hres, init_mode_legacy, init_mode_legacy]
    · simp only [modeField]
      rw [hres, init_mode_extended, init_mode_extended]
  · rw [hres, init_rate, init_rate]
  · rw [hres, init_irqsel, init_irqsel]
  · rw [hres, init_pol, init_pol]

/-- Claim C4, counterexample: an edge interrupt latched before detach whose
handler runs after detach's synchronous timer cancellation re-arms the flush
timer, and the timer then fires once after `meson_ir_remove` has returned. -/
theorem remove_inflight_refire :
    devRun devAttached [DevStep.edge, DevStep.removeRun, DevStep.handler, DevStep.timerFire]
      = some { enabled := false, irqPending := false, timerArmed := false,
               removeDone := true, firedAfterRemove := 1 } := by
  decide

/-- Claim C4 (amended): detach first clears the enable field (REG1 bit 15)
under the lock and only afterwards synchronously cancels the flush timer;
after detach returns the timer fires zero times provided no latched edge
handler runs after the cancellation.  The disable-before-cancel order stops
new edges, but an edge already latched when detach began can still run its
handler after `del_timer_sync` and re-arm the timer, so the unconditional
zero-firing guarantee does not hold. -/
theorem remove_disable_then_cancel (tr1 tr2 : List DevStep) (s0 s' : DevState)
    (hrun : devRun s0 (tr1 ++ DevStep.removeRun :: tr2) = some s')
    (hstart : s0.firedAfterRemove = 0)
    (hnoh : DevStep.handler ∉ tr2) :
    s'.firedAfterRemove = 0
  ∧ meson_ir_remove_actions =
      [Action.lock, Action.write .REG1 32768 0, Action.unlock, Action.delTimerSync] := by
  constructor
  · rw [devRun_append] at hrun
    cases h1 : devRun s0 tr1 with
    | none => rw [h1] at hrun; exact Option.noConfusion hrun
    | some s1 =>
        rw [h1] at hrun
        simp only [Option.some_bind, devRun] at hrun
        cases h2 : devStep s1 .removeRun with
        | none => rw [h2] at hrun; exact Option.noConfusion hrun
        | some s2 =>
            rw [h2] at hrun
            simp only [Option.some_bind] at hrun
            have hs1rd : s1.removeDone = false := by
              cases hb : s1.removeDone
              · rfl
              · simp [devStep, hb] at h2
            have hs2 : s2 = { s1 with enabled := false, timerArmed := false, removeDone := true } := by
              simp [devStep, hs1rd] at h2
              exact h2.symm
            have hf1 : s1.firedAfterRemove = 0 := devRun_fired_zero tr1 s0 s1 h1 hstart hs1rd
            refine devRun_post_remove tr2 s2 s' hrun hnoh ?_ ?_ ?_
            · rw [hs2]
            · rw [hs2]
            · rw [hs2]
              exact hf1
  · rfl

/-- Claim C4 witness: a concrete run — edge latched, then remove completes
with no handler afterwards — ends with zero timer firings after remove. -/
theorem remove_disable_then_cancel_witness :
    devAfterEdgeRemove.firedAfterRemove = 0
  ∧ meson_ir_remove_actions =
      [Action.lock, Action.write .REG1 32768 0, Action.unlock, Action.delTimerSync] :=
  remove_disable_then_cancel [DevStep.edge] [] devAttached devAfterEdgeRemove
    (by decide) (by decide) (by decide)

/-- Claim C5: configure performs, in order, the reset pulse (set then clear
REG1 bit 0), raw-mode select (value 2 in REG1 bits [8:7] for Legacy, REG2
bits [3:0] for Extended), REG0 bits [11:0] set to the sample period minus
one (9), REG1 bits [3:2] set to 1 (both edges), REG1 bit 1 set iff the
polarity is inverted, REG1 bit 15 set, then one discarded read each of
STATUS and FRAME; and after configure with polarity false on Extended, the
REG2 mode field reads 2, REG1 bit 15 is set and REG1 bits [3:2] equal 1. -/
theorem init_sequence_and_scenario :
    (∀ p : Bool, meson_ir_init_actions .legacy p =
       [Action.write .REG1 1 1,
        Action.write .REG1 1 0,
        Action.write .REG1 384 256,
        Action.write .REG0 4095 9,
        Action.write .REG1 12 4,
        Action.write .REG1 2 (if p then 2 else 0),
        Action.write .REG1 32768 32768,
        Action.readReg .STATUS,
        Action.readReg .FRAME])
  ∧ (∀ p : Bool, meson_ir_init_actions .extended p =
       [Action.write .REG1 1 1,
        Action.write .REG1 1 0,
        Action.write .REG2 15 2,
        Action.write .REG0 4095 9,
        Action.write .REG1 12 4,
        Action.write .REG1 2 (if p then 2 else 0),
        Action.write .REG1 32768 32768,
        Action.readReg .STATUS,
        Action.readReg .FRAME])
  ∧ (∀ rf : RegFile,
       getReg (meson_ir_init .extended false rf) .REG2 &&& 15 = 2
     ∧ getReg (meson_ir_init .extended false rf) .REG1 &&& 32768 = 32768
     ∧ getReg (meson_ir_init .extended false rf) .REG1 &&& 12 = 4) := by
  refine ⟨?_, ?_, ?_⟩
  · intro p; cases p <;> decide
  · intro p; cases p <;> decide
  · intro rf
    exact ⟨init_mode_extended false rf, init_enable .extended false rf,
      init_irqsel .extended false rf⟩

/-- Claim C6: for every interrupt handled by the edge capture handler, the
emitted edge event's level equals bit 8 of STATUS as sampled during that
handling, the flush timer is re-armed to now plus the configured timeout,
process-pending-events is invoked, and the handler returns handled
unconditionally. -/
theorem irq_edge_behavior (rf : RegFile) (timeout now : Nat) :
    meson_ir_irq_actions rf timeout now =
      [Action.lock,
       Action.storeEdge ((getReg rf .STATUS).testBit 8),
       Action.modTimer (now + timeout),
       Action.handleEvents,
       Action.unlock]
    ∧ meson_ir_irq_ret = IrqReturn.IRQ_HANDLED := by
  constructor
  · simp only [meson_ir_irq_actions, storeEdge_level_eq_testBit]
  · rfl

/-- Claim C7: shutdown, under the lock, sets the mode field to hardware/NEC
decode (REG1 bits [8:7] to 0 on Legacy, REG2 bits [3:0] to 0 on Extended)
and REG0 bits [11:0] to 0x13 regardless of the prior rate, and performs no
teardown of the software instance (its trace is exactly lock, the two
masked writes, unlock). -/
theorem shutdown_behavior :
    (meson_ir_shutdown_actions .legacy =
       [Action.lock, Action.write .REG1 384 0, Action.write .REG0 4095 19, Action.unlock])
  ∧ (meson_ir_shutdown_actions .extended =
       [Action.lock, Action.write .REG2 15 0, Action.write .REG0 4095 19, Action.unlock])
  ∧ regWritesLocked (meson_ir_shutdown_actions .legacy) = true
  ∧ regWritesLocked (meson_ir_shutdown_actions .extended) = true
  ∧ (∀ rf : RegFile,
       getReg (meson_ir_shutdown .legacy rf) .REG1 &&& REG1_MODE_MASK = 0
     ∧ getReg (meson_ir_shutdown .extended rf) .REG2 &&& REG2_MODE_MASK = 0
     ∧ getReg (meson_ir_shutdown .legacy rf) .REG0 &&& REG0_RATE_MASK = 0x13
     ∧ getReg (meson_ir_shutdown .extended rf) .REG0 &&& REG0_RATE_MASK = 0x13) := by
  refine ⟨by decide, by decide, by decide, by decide, ?_⟩
  intro rf
  refine ⟨?_, ?_, ?_, ?_⟩
  · rw [meson_ir_shutdown_legacy_eq,
        set_mask_getReg_other _ .REG0 .REG1 _ _ (by decide),
        set_mask_getReg_same,
        land_setMaskData_covered _ REG1_MODE_MASK _ REG1_MODE_MASK (by decide) (by decide)]
    decide
  · rw [meson_ir_shutdown_extended_eq,
        set_mask_getReg_other _ .REG0 .REG2 _ _ (by decide),
        set_mask_getReg_same,
        land_setMaskData_covered _ REG2_MODE_MASK _ REG2_MODE_MASK (by decide) (by decide)]
    decide
  · rw [meson_ir_shutdown_legacy_eq, set_mask_getReg_same,
        land_setMaskData_covered _ REG0_RATE_MASK _ REG0_RATE_MASK (by decide) (by decide)]
    decide
  · rw [meson_ir_shutdown_extended_eq, set_mask_getReg_same,
        land_setMaskData_covered _ REG0_RATE_MASK _ REG0_RATE_MASK (by decide) (by decide)]
    decide

/-- Claim C8: for every register, mask, value and prior (32-bit) register
state, `meson_ir_set_mask` leaves the register holding the old value with
the mask bits cleared, ORed with value-and-mask: bits outside the mask are
unchanged and bits of the value outside the mask are ignored. -/
theorem set_mask_spec (rf : RegFile) (reg : IrReg) (mask value i : Nat)
    (hm : mask < 2 ^ 32) (ho : getReg rf reg < 2 ^ 32) :
    getReg (meson_ir_set_mask rf reg mask value) reg
      = ((getReg rf reg &&& compl32 mask) ||| (value &&& mask))
    ∧ (getReg (meson_ir_set_mask rf reg mask value) reg).testBit i
      = if mask.testBit i then value.testBit i else (getReg rf reg).testBit i := by
  constructor
  · exact set_mask_getReg_same rf reg mask value
  · rw [set_mask_getReg_same]
    exact testBit_setMaskData_lt _ _ _ _ hm ho

/-- Claim C8 witness: a masked write of 0xFFFF under mask 0x180 to a REG1
holding 0x8001 yields 0x8181, whose bit 8 comes from the value. -/
theorem set_mask_spec_witness :
    getReg (meson_ir_set_mask rfW8 IrReg.REG1 384 65535) IrReg.REG1 = 33153
  ∧ (getReg (meson_ir_set_mask rfW8 IrReg.REG1 384 65535) IrReg.REG1).testBit 8 = true := by
  have h := set_mask_spec rfW8 IrReg.REG1 384 65535 8 (by decide) (by decide)
  exact ⟨h.1.trans (by decide), h.2.trans (by decide)⟩

/-- Claim C9: shutdown modifies only the mode field (REG1 bits [8:7] on
Legacy, REG2 bits [3:0] on Extended) and REG0 bits [11:0]; every other bit
of every register — in particular the enable bit REG1 bit 15 — keeps its
prior value. -/
theorem shutdown_frame (rf : RegFile) (h0 : getReg rf .REG0 < 2 ^ 32)
    (h1 : getReg rf .REG1 < 2 ^ 32) (h2 : getReg rf .REG2 < 2 ^ 32) :
    (∀ i, ¬(i = 7 ∨ i = 8) →
        (getReg (meson_ir_shutdown .legacy rf) .REG1).testBit i
          = (getReg rf .REG1).testBit i)
  ∧ (getReg (meson_ir_shutdown .legacy rf) .REG1).testBit 15
      = (getReg rf .REG1).testBit 15
  ∧ (∀ i, 12 ≤ i →
        (getReg (meson_ir_shutdown .legacy rf) .REG0).testBit i
          = (getReg rf .REG0).testBit i)
  ∧ getReg (meson_ir_shutdown .legacy rf) .REG2 = getReg rf .REG2
  ∧ getReg (meson_ir_shutdown .legacy rf) .STATUS = getReg rf .STATUS
  ∧ getReg (meson_ir_shutdown .legacy rf) .FRAME = getReg rf .FRAME
  ∧ getReg (meson_ir_shutdown .legacy rf) .LDR_ACTIVE = getReg rf .LDR_ACTIVE
  ∧ getReg (meson_ir_shutdown .legacy rf) .LDR_IDLE = getReg rf .LDR_IDLE
  ∧ getReg (meson_ir_shutdown .legacy rf) .LDR_REPEAT = getReg rf .LDR_REPEAT
  ∧ getReg (meson_ir_shutdown .legacy rf) .BIT_0 = getReg rf .BIT_0
  ∧ getReg (meson_ir_shutdown .extended rf) .REG1 = getReg rf .REG1
  ∧ (∀ i, 4 ≤ i →
        (getReg (meson_ir_shutdown .extended rf) .REG2).testBit i
          = (getReg rf .REG2).testBit i)
  ∧ (∀ i, 12 ≤ i →
        (getReg (meson_ir_shutdown .extended rf) .REG0).testBit i
          = (getReg rf .REG0).testBit i)
  ∧ getReg (meson_ir_shutdown .extended rf) .STATUS = getReg rf .STATUS
  ∧ getReg (meson_ir_shutdown .extended rf) .FRAME = getReg rf .FRAME
  ∧ getReg (meson_ir_shutdown .extended rf) .LDR_ACTIVE = getReg rf .LDR_ACTIVE
  ∧ getReg (meson_ir_shutdown .extended rf) .LDR_IDLE = getReg rf .LDR_IDLE
  ∧ getReg (meson_ir_shutdown .extended rf) .LDR_REPEAT = getReg rf .LDR_REPEAT
  ∧ getReg (meson_ir_shutdown .extended rf) .BIT_0 = getReg rf .BIT_0 := by
  have hL1 : getReg (meson_ir_shutdown .legacy rf) .REG1
      = ((getReg rf .REG1 &&& compl32 REG1_MODE_MASK)
          ||| ((DECODE_MODE_NEC <<< REG1_MODE_SHIFT) &&& REG1_MODE_MASK)) := by
    rw [meson_ir_shutdown_legacy_eq,
        set_mask_getReg_other _ .REG0 .REG1 _ _ (by decide),
        set_mask_getReg_same]
  have hL0 : getReg (meson_ir_shutdown .legacy rf) .REG0
      = ((getReg rf .REG0 &&& compl32 REG0_RATE_MASK) ||| (0x13 &&& REG0_RATE_MASK)) := by
    rw [meson_ir_shutdown_legacy_eq, set_mask_getReg_same,
        set_mask_getReg_other _ .REG1 .REG0 _ _ (by decide)]
  have hE2 : getReg (meson_ir_shutdown .extended rf) .REG2
      = ((getReg rf .REG2 &&& compl32 REG2_MODE_MASK)
          ||| ((DECODE_MODE_NEC <<< REG2_MODE_SHIFT) &&& REG2_MODE_MASK)) := by
    rw [meson_ir_shutdown_extended_eq,
        set_mask_getReg_other _ .REG0 .REG2 _ _ (by decide),
        set_mask_getReg_same]
  have hE0 : getReg (meson_ir_shutdown .extended rf) .REG0
      = ((getReg rf .REG0 &&& compl32 REG0_RATE_MASK) ||| (0x13 &&& REG0_RATE_MASK)) := by
    rw [meson_ir_shutdown_extended_eq, set_mask_getReg_same,
        set_mask_getReg_other _ .REG2 .REG0 _ _ (by decide)]
  refine ⟨?_, ?_, ?_, rfl, rfl, rfl, rfl, rfl, rfl, rfl, rfl, ?_, ?_, rfl, rfl, rfl, rfl,
    rfl, rfl⟩
  · intro i hi
    have h7 : (7 : Nat) ≠ i := fun h => hi (Or.inl h.symm)
    have h8 : (8 : Nat) ≠ i := fun h => hi (Or.inr h.symm)
    rw [hL1, testBit_setMaskData_lt _ REG1_MODE_MASK _ _ (by decide) h1,
        testBit_REG1_MODE_MASK]
    simp [h7, h8]
  · rw [hL1, testBit_setMaskData_lt _ REG1_MODE_MASK _ _ (by decide) h1,
        testBit_REG1_MODE_MASK]
    simp
  · intro i hi
    have hlt : ¬ i < 12 := by omega
    rw [hL0, testBit_setMaskData_lt _ REG0_RATE_MASK _ _ (by decide) h0,
        testBit_REG0_RATE_MASK]
    simp [hlt]
  · intro i hi
    have hlt : ¬ i < 4 := by omega
    rw [hE2, testBit_setMaskData_lt _ REG2_MODE_MASK _ _ (by decide) h2,
        testBit_REG2_MODE_MASK]
    simp [hlt]
  · intro i hi
    have hlt : ¬ i < 12 := by omega
    rw [hE0, testBit_setMaskData_lt _ REG0_RATE_MASK _ _ (by decide) h0,
        testBit_REG0_RATE_MASK]
    simp [hlt]

/-- Claim C9 witness: on a register file with the enable bit and
out-of-field bits set, shutdown preserves REG1 bit 15, REG0 bit 14 and REG2
bit 5. -/
theorem shutdown_frame_witness :
    (getReg (meson_ir_shutdown .legacy rfW9) .REG1).testBit 15
      = (getReg rfW9 .REG1).testBit 15
  ∧ (getReg (meson_ir_shutdown .legacy rfW9) .REG0).testBit 14
      = (getReg rfW9 .REG0).testBit 14
  ∧ (getReg (meson_ir_shutdown .extended rfW9) .REG2).testBit 5
      = (getReg rfW9 .REG2).testBit 5 := by
  have h := shutdown_frame rfW9 (by decide) (by decide) (by decide)
  exact ⟨h.2.1, h.2.2.1 14 (by decide), h.2.2.2.2.2.2.2.2.2.2.2.1 5 (by decide)⟩

/-- Claim C10: probe initializes the rc-device descriptor with a receive
resolution of 10 microseconds, minimum timeout 1, default timeout 125000
and maximum timeout 1250000 microseconds, and the default lies within the
allowed bounds. -/
theorem probe_rc_timing :
    meson_ir_probe_rc.rx_resolution = 10
  ∧ meson_ir_probe_rc.min_timeout = 1
  ∧ meson_ir_probe_rc.timeout = 125000
  ∧ meson_ir_probe_rc.max_timeout = 1250000
  ∧ meson_ir_probe_rc.min_timeout ≤ meson_ir_probe_rc.timeout
  ∧ meson_ir_probe_rc.timeout ≤ meson_ir_probe_rc.max_timeout := by
  refine ⟨by decide, by decide, by decide, by decide, by decide, by decide⟩

end MesonIR
